import Mathlib

/-!
Verification development for the voice capture / translation pipeline
(`voice_translator.rs`, `voice_recorder.rs`, `commands.rs`, `main.rs`,
`translator.rs`, `transcriber.rs`).

Rust `HashMap`s are modelled as association lists over `Nat` keys (insertion
order stands in for the unspecified iteration order).  Timestamps
(`chrono::DateTime<Local>`) are modelled as integer millisecond clocks passed
explicitly: every operation that reads `Local::now()` takes a `now : Int`
parameter.  16-bit PCM samples are modelled as `Int`.
-/

namespace DiggyGizzy

/-! ## Association-list maps (model of `std::collections::HashMap`) -/

abbrev AMap (β : Type) := List (Nat × β)

namespace AMap

/-- Model of `HashMap::get`. -/
def lookup {β : Type} : AMap β → Nat → Option β
  | [], _ => none
  | (k, v) :: rest, k' => if k = k' then some v else lookup rest k'

/-- Model of `HashMap::insert` (overwrite in place, append if absent). -/
def insert {β : Type} : AMap β → Nat → β → AMap β
  | [], k, v => [(k, v)]
  | (k0, v0) :: rest, k, v =>
      if k0 = k then (k0, v) :: rest else (k0, v0) :: insert rest k v

/-- Model of `HashMap::remove`. -/
def erase {β : Type} : AMap β → Nat → AMap β
  | [], _ => []
  | (k0, v0) :: rest, k => if k0 = k then rest else (k0, v0) :: erase rest k

/-- Model of `map.entry(k).or_insert_with(|| dflt)` followed by an in-place
mutation `f` of the entry. -/
def update {β : Type} : AMap β → Nat → β → (β → β) → AMap β
  | [], k, dflt, f => [(k, f dflt)]
  | (k0, v0) :: rest, k, dflt, f =>
      if k0 = k then (k0, f v0) :: rest else (k0, v0) :: update rest k dflt f

/-- Model of `HashMap::contains_key`. -/
def contains {β : Type} (m : AMap β) (k : Nat) : Bool :=
  (m.lookup k).isSome

theorem lookup_insert_self {β : Type} (m : AMap β) (k : Nat) (v : β) :
    (m.insert k v).lookup k = some v := by
  induction m with
  | nil => simp [insert, lookup]
  | cons p rest ih =>
      obtain ⟨k0, v0⟩ := p
      by_cases h : k0 = k
      · simp [insert, lookup, h]
      · simp [insert, lookup, h, ih]

theorem lookup_insert_ne {β : Type} (m : AMap β) (k k' : Nat) (v : β)
    (h : k ≠ k') : (m.insert k v).lookup k' = m.lookup k' := by
  induction m with
  | nil => simp [insert, lookup, h]
  | cons p rest ih =>
      obtain ⟨k0, v0⟩ := p
      by_cases h0 : k0 = k
      · subst h0
        simp [insert, lookup, h]
      · simp [insert, lookup, h0, ih]

theorem lookup_update_self {β : Type} (m : AMap β) (k : Nat) (d : β)
    (f : β → β) :
    (m.update k d f).lookup k = some (f ((m.lookup k).getD d)) := by
  induction m with
  | nil => simp [update, lookup]
  | cons p rest ih =>
      obtain ⟨k0, v0⟩ := p
      by_cases h : k0 = k
      · simp [update, lookup, h]
      · simp [update, lookup, h, ih]

theorem lookup_update_ne {β : Type} (m : AMap β) (k k' : Nat) (d : β)
    (f : β → β) (h : k ≠ k') :
    (m.update k d f).lookup k' = m.lookup k' := by
  induction m with
  | nil => simp [update, lookup, h]
  | cons p rest ih =>
      obtain ⟨k0, v0⟩ := p
      by_cases h0 : k0 = k
      · subst h0
        simp [update, lookup, h]
      · simp [update, lookup, h0, ih]

end AMap

/-! ## `voice_translator.rs`: buffers and sessions -/

/-- Mirror of `TranslationPair`. -/
structure TranslationPair where
  source_lang : String
  target_lang : String
deriving Repr, DecidableEq

/-- Mirror of `TranslationBuffer`: per-stream accumulated 16-bit samples,
last-activity clock and speaking flag. -/
structure TranslationBuffer where
  user_id : Nat
  samples : List Int
  last_activity : Int
  is_speaking : Bool
deriving Repr, DecidableEq

namespace TranslationBuffer

/-- Mirror of `TranslationBuffer::new` (`last_activity = Local::now()`). -/
def new (user_id : Nat) (now : Int) : TranslationBuffer :=
  { user_id := user_id, samples := [], last_activity := now, is_speaking := false }

/-- Mirror of `TranslationBuffer::add_samples`. -/
def add_samples (b : TranslationBuffer) (s : List Int) (now : Int) :
    TranslationBuffer :=
  { b with samples := b.samples ++ s, last_activity := now, is_speaking := true }

/-- Mirror of `TranslationBuffer::mark_silence`. -/
def mark_silence (b : TranslationBuffer) : TranslationBuffer :=
  { b with is_speaking := false }

/-- Mirror of `TranslationBuffer::should_flush`: false on an empty buffer,
otherwise elapsed milliseconds strictly above the silence threshold. -/
def should_flush (b : TranslationBuffer) (now : Int) (silence_duration_ms : Int) :
    Bool :=
  if b.samples.isEmpty then false
  else decide (now - b.last_activity > silence_duration_ms)

/-- Mirror of `TranslationBuffer::has_minimum_duration`. -/
def has_minimum_duration (b : TranslationBuffer) (min_samples : Nat) : Bool :=
  decide (b.samples.length ≥ min_samples)

/-- Mirror of `TranslationBuffer::clear`. -/
def clear (b : TranslationBuffer) : TranslationBuffer :=
  { b with samples := [], is_speaking := false }

end TranslationBuffer

/-- Constant `SILENCE_MS` from `TranslationSession::get_ready_buffers`. -/
def SILENCE_MS : Int := 1500

/-- Constant `MIN_SAMPLES` from `TranslationSession::get_ready_buffers`. -/
def MIN_SAMPLES : Nat := 24000

/-- The readiness condition tested inside `get_ready_buffers`:
`buffer.should_flush(SILENCE_MS) && buffer.has_minimum_duration(MIN_SAMPLES)`. -/
def bufferReady (now : Int) (b : TranslationBuffer) : Bool :=
  b.should_flush now SILENCE_MS && b.has_minimum_duration MIN_SAMPLES

/-- Mirror of `TranslationSession`.  `speaker_buffers` is keyed by SSRC,
`ssrc_to_user` maps SSRC to user id. -/
structure TranslationSession where
  guild_id : Nat
  channel_id : Nat
  translation_pair : TranslationPair
  start_time : Int
  speaker_buffers : AMap TranslationBuffer
  ssrc_to_user : AMap Nat
deriving Repr, DecidableEq

namespace TranslationSession

/-- Mirror of `TranslationSession::new`. -/
def new (guild_id channel_id : Nat) (pair : TranslationPair) (now : Int) :
    TranslationSession :=
  { guild_id := guild_id, channel_id := channel_id, translation_pair := pair,
    start_time := now, speaker_buffers := [], ssrc_to_user := [] }

/-- Mirror of `TranslationSession::add_audio`: insert the SSRC mapping, then
`entry(ssrc).or_insert_with(TranslationBuffer::new).add_samples(samples)`. -/
def add_audio (s : TranslationSession) (now : Int) (ssrc user_id : Nat)
    (samples : List Int) : TranslationSession :=
  { s with
    ssrc_to_user := s.ssrc_to_user.insert ssrc user_id,
    speaker_buffers :=
      s.speaker_buffers.update ssrc (TranslationBuffer.new user_id now)
        (fun b => b.add_samples samples now) }

/-- Mirror of `TranslationSession::mark_silence` (no-op when the buffer is
absent). -/
def mark_silence (s : TranslationSession) (ssrc : Nat) : TranslationSession :=
  match s.speaker_buffers.lookup ssrc with
  | none => s
  | some b =>
      { s with speaker_buffers := s.speaker_buffers.insert ssrc b.mark_silence }

/-- One iteration of the loop body of `get_ready_buffers` on the entry
`(ssrc, buffer)`: when ready and the SSRC is mapped, emit `(user, samples)` and
clear the buffer; otherwise leave the entry untouched. -/
def sweepStep (now : Int) (ssrcMap : AMap Nat) (p : Nat × TranslationBuffer) :
    Option (Nat × List Int) × (Nat × TranslationBuffer) :=
  if bufferReady now p.2 then
    match ssrcMap.lookup p.1 with
    | some user_id => (some (user_id, p.2.samples), (p.1, p.2.clear))
    | none => (none, p)
  else (none, p)

/-- Mirror of `TranslationSession::get_ready_buffers`: returns the emitted
`(user, samples)` pairs and the session after the sweep. -/
def get_ready_buffers (s : TranslationSession) (now : Int) :
    List (Nat × List Int) × TranslationSession :=
  (s.speaker_buffers.filterMap (fun p => (sweepStep now s.ssrc_to_user p).1),
   { s with
     speaker_buffers :=
       s.speaker_buffers.map (fun p => (sweepStep now s.ssrc_to_user p).2) })

end TranslationSession

/-! ## Claims C1 and C2: readiness condition and flush scenario -/

/-- C1: for every translation buffer, the readiness check used by the sweep
(`should_flush` together with `has_minimum_duration`, with the constants of
`get_ready_buffers`) is true exactly when the elapsed time since last activity
strictly exceeds 1500 ms and the accumulated sample count is at least 24000;
moreover a buffer below the 24000-sample minimum is never flushed by a sweep
step, regardless of elapsed silence. -/
theorem readiness_iff_silence_and_min_duration (now : Int) (b : TranslationBuffer) :
    (bufferReady now b = true ↔
      now - b.last_activity > 1500 ∧ b.samples.length ≥ 24000)
    ∧ (b.samples.length < 24000 →
        ∀ (ssrc : Nat) (ssrcMap : AMap Nat),
          TranslationSession.sweepStep now ssrcMap (ssrc, b) = (none, (ssrc, b))) := by
  constructor
  · by_cases hs : b.samples = []
    · simp [bufferReady, TranslationBuffer.should_flush,
        TranslationBuffer.has_minimum_duration, hs, SILENCE_MS, MIN_SAMPLES]
    · simp [bufferReady, TranslationBuffer.should_flush,
        TranslationBuffer.has_minimum_duration, List.isEmpty_iff, hs,
        SILENCE_MS, MIN_SAMPLES]
  · intro hlt ssrc ssrcMap
    have hmin : b.has_minimum_duration MIN_SAMPLES = false := by
      simp only [TranslationBuffer.has_minimum_duration, MIN_SAMPLES,
        decide_eq_false_iff_not]
      omega
    have hready : bufferReady now b = false := by
      simp [bufferReady, hmin]
    simp [TranslationSession.sweepStep, hready]

/-- Witness for `readiness_iff_silence_and_min_duration`: a buffer with a
single sample, silent for 10 s, is left untouched by a sweep step. -/
theorem readiness_iff_silence_and_min_duration_witness :
    (TranslationBuffer.mk 5 [1] 0 true).samples.length < 24000 ∧
      TranslationSession.sweepStep 10000 []
        (7, TranslationBuffer.mk 5 [1] 0 true) =
        (none, (7, TranslationBuffer.mk 5 [1] 0 true)) :=
  ⟨by decide,
   (readiness_iff_silence_and_min_duration 10000
     (TranslationBuffer.mk 5 [1] 0 true)).2 (by decide) 7 []⟩

/-- A sweep leaves a session whose buffers all hold no samples unchanged and
emits nothing (helper shared by the C2 scenario). -/
theorem sweep_of_all_empty (now : Int) (t : TranslationSession)
    (h : ∀ p ∈ t.speaker_buffers, (p.2).samples = []) :
    (t.get_ready_buffers now).1 = [] ∧
      (t.get_ready_buffers now).2.speaker_buffers = t.speaker_buffers := by
  have hstep : ∀ p ∈ t.speaker_buffers,
      TranslationSession.sweepStep now t.ssrc_to_user p = (none, p) := by
    intro p hp
    have hready : bufferReady now p.2 = false := by
      simp [bufferReady, TranslationBuffer.should_flush, h p hp]
    simp [TranslationSession.sweepStep, hready]
  constructor
  · simp only [TranslationSession.get_ready_buffers]
    rw [List.filterMap_eq_nil_iff]
    intro p hp
    rw [hstep p hp]
  · simp only [TranslationSession.get_ready_buffers]
    have : t.speaker_buffers.map
        (fun p => (TranslationSession.sweepStep now t.ssrc_to_user p).2) =
        t.speaker_buffers.map id := by
      apply List.map_congr_left
      intro p hp
      rw [hstep p hp]
      rfl
    rw [this, List.map_id]

/-- C2: in a translating session where stream `S` is attributed to speaker `A`
and the buffer for `S` holds 30000 samples with more than 1500 ms of silence,
the sweep reports the buffer ready, yields exactly the accumulated samples,
and clears the buffer; a sweep over a session whose buffers are all empty
yields an empty result and changes nothing. -/
theorem sweep_flushes_ready_buffer (S A : Nat) (b : TranslationBuffer)
    (now : Int) (s : TranslationSession)
    (hlen : b.samples.length = 30000)
    (hsil : now - b.last_activity > 1500)
    (hbufs : s.speaker_buffers = [(S, b)])
    (hmap : s.ssrc_to_user.lookup S = some A) :
    (s.get_ready_buffers now).1 = [(A, b.samples)]
    ∧ (s.get_ready_buffers now).2.speaker_buffers = [(S, b.clear)]
    ∧ b.clear.samples = []
    ∧ ∀ (t : TranslationSession), (∀ p ∈ t.speaker_buffers, (p.2).samples = []) →
        (t.get_ready_buffers now).1 = [] ∧
          (t.get_ready_buffers now).2.speaker_buffers = t.speaker_buffers := by
  have hne : b.samples ≠ [] := by
    intro hnil
    rw [hnil] at hlen
    simp at hlen
  have hready : bufferReady now b = true := by
    simp [bufferReady, TranslationBuffer.should_flush,
      TranslationBuffer.has_minimum_duration, List.isEmpty_iff, hne,
      SILENCE_MS, MIN_SAMPLES, hlen]
    exact hsil
  have hstep : TranslationSession.sweepStep now s.ssrc_to_user (S, b) =
      (some (A, b.samples), (S, b.clear)) := by
    simp [TranslationSession.sweepStep, hready, hmap]
  refine ⟨?_, ?_, rfl, fun t ht => sweep_of_all_empty now t ht⟩
  · simp [TranslationSession.get_ready_buffers, hbufs, hstep]
  · simp [TranslationSession.get_ready_buffers, hbufs, hstep]

/-- Buffer used by the C2 witness: 30000 accumulated samples, last activity at
time 0. -/
def c2buffer : TranslationBuffer :=
  { user_id := 5, samples := List.replicate 30000 0, last_activity := 0,
    is_speaking := false }

/-- Session used by the C2 witness: stream 7 attributed to speaker 5. -/
def c2session : TranslationSession :=
  { guild_id := 1, channel_id := 2,
    translation_pair := { source_lang := "ja", target_lang := "en" },
    start_time := 0, speaker_buffers := [(7, c2buffer)],
    ssrc_to_user := [(7, 5)] }

/-- Session used by the C2 witness with one buffer holding no samples. -/
def c2emptySession : TranslationSession :=
  { guild_id := 1, channel_id := 2,
    translation_pair := { source_lang := "ja", target_lang := "en" },
    start_time := 0,
    speaker_buffers := [(3, TranslationBuffer.new 9 0)],
    ssrc_to_user := [(3, 9)] }

/-- Witness for `sweep_flushes_ready_buffer` at time 1600 ms. -/
theorem sweep_flushes_ready_buffer_witness :
    (c2session.get_ready_buffers 1600).1 = [(5, c2buffer.samples)]
    ∧ (c2session.get_ready_buffers 1600).2.speaker_buffers =
        [(7, c2buffer.clear)]
    ∧ (c2emptySession.get_ready_buffers 1600).1 = [] := by
  have hlen : c2buffer.samples.length = 30000 := by
    show (List.replicate 30000 (0 : Int)).length = 30000
    exact List.length_replicate _ _
  have h := sweep_flushes_ready_buffer 7 5 c2buffer 1600 c2session
    hlen (by decide) rfl rfl
  refine ⟨h.1, h.2.1, ?_⟩
  exact (h.2.2.2 c2emptySession (by simp [c2emptySession, TranslationBuffer.new])).1

/-! ## Claim C3: every ready buffer is flushed by a sweep -/

theorem AMap.mem_update {β : Type} (m : AMap β) (k : Nat) (d : β) (f : β → β)
    (p : Nat × β) (hp : p ∈ m.update k d f) :
    p.1 = k ∨ ∃ v, (p.1, v) ∈ m := by
  induction m with
  | nil =>
      left
      simp only [AMap.update, List.mem_singleton] at hp
      rw [hp]
  | cons q rest ih =>
      obtain ⟨k0, v0⟩ := q
      simp only [AMap.update] at hp
      by_cases h0 : k0 = k
      · rw [if_pos h0] at hp
        rcases List.mem_cons.mp hp with hp | hp
        · left
          rw [hp]
          exact h0
        · right
          exact ⟨p.2, List.mem_cons_of_mem _ (by simpa using hp)⟩
      · rw [if_neg h0] at hp
        rcases List.mem_cons.mp hp with hp | hp
        · right
          refine ⟨v0, ?_⟩
          rw [hp]
          exact List.mem_cons_self _ _
        · rcases ih hp with h | ⟨v, hv⟩
          · left; exact h
          · right; exact ⟨v, List.mem_cons_of_mem _ hv⟩

theorem AMap.mem_insert {β : Type} (m : AMap β) (k : Nat) (v : β)
    (p : Nat × β) (hp : p ∈ m.insert k v) : p.1 = k ∨ p ∈ m := by
  induction m with
  | nil =>
      left
      simp only [AMap.insert, List.mem_singleton] at hp
      rw [hp]
  | cons q rest ih =>
      obtain ⟨k0, v0⟩ := q
      simp only [AMap.insert] at hp
      by_cases h0 : k0 = k
      · rw [if_pos h0] at hp
        rcases List.mem_cons.mp hp with hp | hp
        · left
          rw [hp]
          exact h0
        · right
          exact List.mem_cons_of_mem _ hp
      · rw [if_neg h0] at hp
        rcases List.mem_cons.mp hp with hp | hp
        · right
          rw [hp]
          exact List.mem_cons_self _ _
        · rcases ih hp with h | h
          · left; exact h
          · right; exact List.mem_cons_of_mem _ h

theorem AMap.lookup_some_mem {β : Type} (m : AMap β) (k : Nat) (v : β)
    (h : m.lookup k = some v) : (k, v) ∈ m := by
  induction m with
  | nil => simp [AMap.lookup] at h
  | cons q rest ih =>
      obtain ⟨k0, v0⟩ := q
      simp only [AMap.lookup] at h
      by_cases h0 : k0 = k
      · rw [if_pos h0] at h
        injection h with h
        rw [← h0, ← h]
        exact List.mem_cons_self _ _
      · rw [if_neg h0] at h
        exact List.mem_cons_of_mem _ (ih h)

/-- Reachability invariant: every buffered stream of a translation session is
present in the session's SSRC-to-user map. -/
def SessionInv (s : TranslationSession) : Prop :=
  ∀ p ∈ s.speaker_buffers, (s.ssrc_to_user.lookup p.1).isSome

/-- Session states reachable through the operations of
`TranslationSession`. -/
inductive ReachableSession : TranslationSession → Prop
  | new (g c : Nat) (pair : TranslationPair) (now : Int) :
      ReachableSession (TranslationSession.new g c pair now)
  | add_audio (s : TranslationSession) (now : Int) (ssrc user_id : Nat)
      (samples : List Int) : ReachableSession s →
      ReachableSession (s.add_audio now ssrc user_id samples)
  | mark_silence (s : TranslationSession) (ssrc : Nat) :
      ReachableSession s → ReachableSession (s.mark_silence ssrc)
  | sweep (s : TranslationSession) (now : Int) :
      ReachableSession s → ReachableSession (s.get_ready_buffers now).2

/-- A sweep step never changes an entry's key. -/
theorem sweepStep_key (now : Int) (m : AMap Nat)
    (p : Nat × TranslationBuffer) :
    (TranslationSession.sweepStep now m p).2.1 = p.1 := by
  unfold TranslationSession.sweepStep
  by_cases hr : bufferReady now p.2
  · simp only [hr, if_pos rfl]
    cases m.lookup p.1 <;> rfl
  · simp [hr]

theorem reachable_inv (s : TranslationSession) (h : ReachableSession s) :
    SessionInv s := by
  induction h with
  | new g c pair now =>
      intro p hp
      simp [TranslationSession.new] at hp
  | add_audio s now ssrc user_id samples _ ih =>
      intro p hp
      simp only [TranslationSession.add_audio] at hp ⊢
      rcases AMap.mem_update _ _ _ _ _ hp with hk | ⟨v, hv⟩
      · rw [hk, AMap.lookup_insert_self]
        rfl
      · by_cases hks : p.1 = ssrc
        · rw [hks, AMap.lookup_insert_self]
          rfl
        · rw [AMap.lookup_insert_ne _ _ _ _ (fun hEq => hks hEq.symm)]
          exact ih (p.1, v) hv
  | mark_silence s ssrc _ ih =>
      intro p hp
      unfold TranslationSession.mark_silence at hp ⊢
      cases hb : s.speaker_buffers.lookup ssrc with
      | none =>
          rw [hb] at hp
          exact ih p hp
      | some b =>
          rw [hb] at hp
          simp only at hp ⊢
          rcases AMap.mem_insert _ _ _ _ hp with hk | hmem
          · rw [hk]
            exact ih (ssrc, b) (AMap.lookup_some_mem _ _ _ hb)
          · exact ih p hmem
  | sweep s now _ ih =>
      intro p hp
      simp only [TranslationSession.get_ready_buffers, List.mem_map] at hp
      obtain ⟨q, hq, hfq⟩ := hp
      have hkey : p.1 = q.1 := by
        rw [← hfq]
        exact sweepStep_key now s.ssrc_to_user q
      rw [hkey]
      exact ih q hq

/-- Under the invariant, one sweep step on a ready entry emits its utterance
and clears it, and leaves a non-ready entry untouched. -/
theorem sweepStep_of_mapped (now : Int) (m : AMap Nat)
    (p : Nat × TranslationBuffer) (hm : (m.lookup p.1).isSome) :
    TranslationSession.sweepStep now m p =
      if bufferReady now p.2 then
        (some ((m.lookup p.1).getD 0, p.2.samples), (p.1, p.2.clear))
      else (none, p) := by
  obtain ⟨u, hu⟩ := Option.isSome_iff_exists.mp hm
  unfold TranslationSession.sweepStep
  by_cases hr : bufferReady now p.2 <;> simp [hr, hu]

/-- List form of the emission half of the sweep: with every key mapped, the
emitted list is one entry per ready buffer. -/
theorem sweep_emits_of_mapped (now : Int) (m : AMap Nat)
    (l : List (Nat × TranslationBuffer))
    (hl : ∀ p ∈ l, (m.lookup p.1).isSome) :
    l.filterMap (fun p => (TranslationSession.sweepStep now m p).1) =
      (l.filter (fun p => bufferReady now p.2)).map
        (fun p => ((m.lookup p.1).getD 0, p.2.samples)) := by
  induction l with
  | nil => rfl
  | cons p rest ih =>
      have hp := hl p (List.mem_cons_self p rest)
      have hrest : ∀ q ∈ rest, (m.lookup q.1).isSome :=
        fun q hq => hl q (List.mem_cons_of_mem p hq)
      by_cases hr : bufferReady now p.2
      · simp [List.filterMap_cons, List.filter_cons,
          sweepStep_of_mapped now m p hp, hr, ih hrest]
      · simp [List.filterMap_cons, List.filter_cons,
          sweepStep_of_mapped now m p hp, hr, ih hrest]

/-- List form of the clearing half of the sweep: with every key mapped, ready
buffers are cleared in place and non-ready buffers are untouched. -/
theorem sweep_clears_of_mapped (now : Int) (m : AMap Nat)
    (l : List (Nat × TranslationBuffer))
    (hl : ∀ p ∈ l, (m.lookup p.1).isSome) :
    l.map (fun p => (TranslationSession.sweepStep now m p).2) =
      l.map (fun p => if bufferReady now p.2 then (p.1, p.2.clear) else p) := by
  apply List.map_congr_left
  intro p hp
  rw [sweepStep_of_mapped now m p (hl p hp)]
  by_cases hr : bufferReady now p.2 <;> simp [hr]

/-- C3: on a sweep of any reachable session state, the emitted utterances are
exactly one per ready buffer (each carrying that buffer's speaker and its
full accumulated samples, in buffer order), every ready buffer is cleared,
and every non-ready buffer is left untouched. -/
theorem sweep_flushes_every_ready_buffer (s : TranslationSession) (now : Int)
    (hreach : ReachableSession s) :
    (s.get_ready_buffers now).1 =
      (s.speaker_buffers.filter (fun p => bufferReady now p.2)).map
        (fun p => ((s.ssrc_to_user.lookup p.1).getD 0, p.2.samples))
    ∧ (s.get_ready_buffers now).2.speaker_buffers =
        s.speaker_buffers.map
          (fun p => if bufferReady now p.2 then (p.1, p.2.clear) else p) := by
  have hinv := reachable_inv s hreach
  exact ⟨sweep_emits_of_mapped now s.ssrc_to_user s.speaker_buffers hinv,
    sweep_clears_of_mapped now s.ssrc_to_user s.speaker_buffers hinv⟩

/-- Session used by the C3 witness: reachable state with one buffer of 24000
samples for stream 7 / speaker 5. -/
def c3session : TranslationSession :=
  (TranslationSession.new 1 2 (TranslationPair.mk "ja" "en") 0).add_audio 0 7 5
    (List.replicate 24000 0)

/-- Witness for `sweep_flushes_every_ready_buffer` on a concrete reachable
session at time 2000 ms. -/
theorem sweep_flushes_every_ready_buffer_witness :
    (c3session.get_ready_buffers 2000).1 =
      (c3session.speaker_buffers.filter (fun p => bufferReady 2000 p.2)).map
        (fun p => ((c3session.ssrc_to_user.lookup p.1).getD 0, p.2.samples))
    ∧ (c3session.get_ready_buffers 2000).2.speaker_buffers =
        c3session.speaker_buffers.map
          (fun p => if bufferReady 2000 p.2 then (p.1, p.2.clear) else p) :=
  sweep_flushes_every_ready_buffer c3session 2000
    (ReachableSession.add_audio _ 0 7 5 (List.replicate 24000 0)
      (ReachableSession.new 1 2 (TranslationPair.mk "ja" "en") 0))

end DiggyGizzy

namespace DiggyGizzy

/-! ## `voice_translator.rs`: manager and songbird event handler -/

/-- Mirror of `TranslationManager` (`active_sessions`, keyed by guild id). -/
abbrev TranslationManager := AMap TranslationSession

namespace TranslationManager

/-- Mirror of `TranslationManager::start_translation` (unconditional insert). -/
def start_translation (mgr : TranslationManager) (guild_id channel_id : Nat)
    (pair : TranslationPair) (now : Int) :
    TranslationSession × TranslationManager :=
  let session := TranslationSession.new guild_id channel_id pair now
  (session, mgr.insert guild_id session)

/-- Mirror of `TranslationManager::stop_translation` (remove and return). -/
def stop_translation (mgr : TranslationManager) (guild_id : Nat) :
    Option TranslationSession × TranslationManager :=
  (mgr.lookup guild_id, mgr.erase guild_id)

/-- Mirror of `TranslationManager::is_translating`. -/
def is_translating (mgr : TranslationManager) (guild_id : Nat) : Bool :=
  mgr.contains guild_id

/-- Mirror of `TranslationManager::add_audio_to_session` (no-op when the guild
has no session). -/
def add_audio_to_session (mgr : TranslationManager) (now : Int)
    (guild_id ssrc user_id : Nat) (samples : List Int) : TranslationManager :=
  match mgr.lookup guild_id with
  | some session =>
      mgr.insert guild_id (session.add_audio now ssrc user_id samples)
  | none => mgr

/-- Mirror of `TranslationManager::get_ready_translations`. -/
def get_ready_translations (mgr : TranslationManager) (now : Int)
    (guild_id : Nat) : List (Nat × List Int) × TranslationManager :=
  match mgr.lookup guild_id with
  | some session =>
      let r := session.get_ready_buffers now
      (r.1, mgr.insert guild_id r.2)
  | none => ([], mgr)

end TranslationManager

/-- The songbird `EventContext` cases the translate handler reacts to:
`SpeakingStateUpdate { ssrc, user_id }` and `VoiceTick` carrying, per SSRC,
either decoded PCM or no audio (`decoded_voice = None`). -/
inductive VoiceEvent
  | speakingStateUpdate (ssrc : Nat) (user_id : Option Nat)
  | voiceTick (speaking : List (Nat × Option (List Int)))
deriving Repr, DecidableEq

/-- Mirror of `VoiceTranslateHandler` (the handler keeps its own
SSRC-to-user map, separate from the session's). -/
structure VoiceTranslateHandler where
  guild_id : Nat
  ssrc_to_user : AMap Nat
deriving Repr, DecidableEq

namespace VoiceTranslateHandler

/-- Mirror of `VoiceTranslateHandler::new`. -/
def new (guild_id : Nat) : VoiceTranslateHandler :=
  { guild_id := guild_id, ssrc_to_user := [] }

/-- One iteration of the `VoiceTick` loop of `VoiceTranslateHandler::act`:
with decoded non-empty audio, forward it when the handler knows the SSRC.
With no decoded audio the source calls
`add_audio_to_session(guild, ssrc, Id::new(0), &[])`; twilight's `Id` is
backed by `NonZeroU64` and `Id::new` panics on 0, so this branch panics
while evaluating the argument, before `add_audio_to_session` runs —
modelled as an `error` carrying the panic message. -/
def tickEntry (h : VoiceTranslateHandler) (mgr : TranslationManager)
    (now : Int) (p : Nat × Option (List Int)) :
    Except String TranslationManager :=
  match p.2 with
  | some audio =>
      if audio.isEmpty then .ok mgr
      else
        match h.ssrc_to_user.lookup p.1 with
        | some user_id =>
            .ok (mgr.add_audio_to_session now h.guild_id p.1 user_id audio)
        | none => .ok mgr
  | none => .error "called Id::new with invalid value: 0"

/-- The `VoiceTick` loop over the tick's entries: a panic aborts the loop,
keeping the effects of the entries already processed. -/
def runTick (h : VoiceTranslateHandler) (now : Int) :
    List (Nat × Option (List Int)) → TranslationManager →
    TranslationManager × Option String
  | [], mgr => (mgr, none)
  | p :: rest, mgr =>
      match h.tickEntry mgr now p with
      | .ok m2 => runTick h now rest m2
      | .error e => (mgr, some e)

/-- Mirror of `VoiceTranslateHandler::act`: the state reached, paired with
`some panicMessage` when the invocation panics (`none` when it completes
normally). -/
def act (h : VoiceTranslateHandler) (mgr : TranslationManager) (now : Int) :
    VoiceEvent → (VoiceTranslateHandler × TranslationManager) × Option String
  | .speakingStateUpdate ssrc user_id? =>
      match user_id? with
      | some user_id =>
          (({ h with ssrc_to_user := h.ssrc_to_user.insert ssrc user_id },
            mgr), none)
      | none => ((h, mgr), none)
  | .voiceTick speaking =>
      let r := h.runTick now speaking mgr
      ((h, r.1), r.2)

/-- Fold of `act` over a list of transport events (each event is a separate
handler invocation; a panic aborts only that invocation, and the state it
had reached persists). -/
def runEvents (h : VoiceTranslateHandler) (mgr : TranslationManager)
    (now : Int) (evs : List VoiceEvent) :
    VoiceTranslateHandler × TranslationManager :=
  evs.foldl (fun st e => ((st.1).act st.2 now e).1) (h, mgr)

end VoiceTranslateHandler

/-! ## Claims C10 and C4: the no-audio (silence) branch of `VoiceTick` -/

/-- Manager state used for the C10 counterexample and the C4 divergence:
guild 1 is translating, stream 7 is attributed to user 5, and 7's buffer
holds `[1, 2, 3]` with `last_activity = 0` and `is_speaking = true`. -/
def c4manager : TranslationManager :=
  [(1, { guild_id := 1, channel_id := 2,
         translation_pair := { source_lang := "ja", target_lang := "en" },
         start_time := 0,
         speaker_buffers := [(7, { user_id := 5, samples := [1, 2, 3],
                                   last_activity := 0, is_speaking := true })],
         ssrc_to_user := [(7, 5)] })]

/-- C10 (counterexample): at a concrete no-audio tick for attributed stream
7 of a translating session, none of the claimed effects occur: the handler
invocation panics at `Id::new(0)`, stream 7 is still attributed to user 5
(not overwritten with user 0), and the buffer's last-activity clock is not
reset. -/
theorem silence_tick_counterexample :
    ((VoiceTranslateHandler.mk 1 [(7, 5)]).act c4manager 100
        (.voiceTick [(7, none)])).2 =
      some "called Id::new with invalid value: 0"
    ∧ ((((VoiceTranslateHandler.mk 1 [(7, 5)]).act c4manager 100
        (.voiceTick [(7, none)])).1.2.lookup 1).map
      (fun s => s.ssrc_to_user.lookup 7)) = some (some 5)
    ∧ ((((VoiceTranslateHandler.mk 1 [(7, 5)]).act c4manager 100
        (.voiceTick [(7, none)])).1.2.lookup 1).map
      (fun s => (s.speaker_buffers.lookup 7).map
        (fun b => b.last_activity))) = some (some 0) :=
  ⟨rfl, rfl, rfl⟩

/-- C10 (amended): a voice tick entry whose stream carries no decoded audio
reaches the no-audio branch, which evaluates `Id::new(0)` and panics before
`add_audio_to_session` is called; the handler and the session registry are
returned unchanged — no attribution is overwritten, no buffer is created,
and no last-activity clock is reset. -/
theorem silence_tick_panics_before_audio_add (h : VoiceTranslateHandler)
    (mgr : TranslationManager) (now : Int) (S : Nat) :
    h.act mgr now (.voiceTick [(S, none)]) =
      ((h, mgr), some "called Id::new with invalid value: 0") := rfl

/-- C4 (divergence witness): on a voice tick with no audio for attributed
stream 7 of a translating session, the system does not set that buffer's
`is_speaking` to false: the no-audio branch panics evaluating `Id::new(0)`,
`TranslationBuffer::mark_silence` is never called (it is dead code), and
the buffer's speaking flag stays true. -/
theorem voice_tick_silence_divergence :
    ((VoiceTranslateHandler.mk 1 [(7, 5)]).act c4manager 100
        (.voiceTick [(7, none)])).2 =
      some "called Id::new with invalid value: 0"
    ∧ ((((VoiceTranslateHandler.mk 1 [(7, 5)]).act c4manager 100
        (.voiceTick [(7, none)])).1.2.lookup 1).map
      (fun s => (s.speaker_buffers.lookup 7).map
        (fun b => b.is_speaking))) = some (some true) :=
  ⟨rfl, rfl⟩

/-! ## Claim C5: attribution is last-write-wins -/

/-- Running events over an appended list composes. -/
theorem VoiceTranslateHandler.runEvents_append (h : VoiceTranslateHandler)
    (mgr : TranslationManager) (now : Int) (l1 l2 : List VoiceEvent) :
    h.runEvents mgr now (l1 ++ l2) =
      ((h.runEvents mgr now l1).1).runEvents (h.runEvents mgr now l1).2 now
        l2 := by
  simp [VoiceTranslateHandler.runEvents, List.foldl_append]

/-- A single event that is not a speaking-state update for stream `S` leaves
the handler's mapping for `S` unchanged. -/
theorem act_preserves_attribution (h : VoiceTranslateHandler)
    (mgr : TranslationManager) (now : Int) (S : Nat) (e : VoiceEvent)
    (he : ∀ u : Nat, e ≠ .speakingStateUpdate S (some u)) :
    ((h.act mgr now e).1.1).ssrc_to_user.lookup S =
      h.ssrc_to_user.lookup S := by
  cases e with
  | speakingStateUpdate ssrc user_id? =>
      cases user_id? with
      | none => rfl
      | some u =>
          have hne : ssrc ≠ S := by
            intro hEq
            exact he u (by rw [hEq])
          simp [VoiceTranslateHandler.act, AMap.lookup_insert_ne _ _ _ _ hne]
  | voiceTick speaking => rfl

/-- A run of events containing no speaking-state update for stream `S` leaves
the handler's mapping for `S` unchanged. -/
theorem runEvents_preserves_attribution (now : Int) (S : Nat)
    (evs : List VoiceEvent)
    (hevs : ∀ e ∈ evs, ∀ u : Nat, e ≠ .speakingStateUpdate S (some u)) :
    ∀ (h : VoiceTranslateHandler) (mgr : TranslationManager),
      ((h.runEvents mgr now evs).1).ssrc_to_user.lookup S =
        h.ssrc_to_user.lookup S := by
  induction evs with
  | nil => intro h mgr; rfl
  | cons e rest ih =>
      intro h mgr
      have hrest : ∀ e' ∈ rest, ∀ u : Nat,
          e' ≠ VoiceEvent.speakingStateUpdate S (some u) :=
        fun e' he' => hevs e' (List.mem_cons_of_mem e he')
      have hstep := act_preserves_attribution h mgr now S e
        (hevs e (List.mem_cons_self e rest))
      calc ((h.runEvents mgr now (e :: rest)).1).ssrc_to_user.lookup S
          = ((((h.act mgr now e).1.1).runEvents ((h.act mgr now e).1.2) now
              rest).1).ssrc_to_user.lookup S := rfl
        _ = ((h.act mgr now e).1.1).ssrc_to_user.lookup S :=
            ih hrest (h.act mgr now e).1.1 (h.act mgr now e).1.2
        _ = h.ssrc_to_user.lookup S := hstep

/-- C5: the stream-to-speaker attribution is last-write-wins: after a
speaking-state event attributing `S` to `A` and later one attributing `S` to
`B`, with no later attribution event for `S`, the handler resolves `S` to
`B`. -/
theorem attribution_last_write_wins (h : VoiceTranslateHandler)
    (mgr : TranslationManager) (now : Int) (S A B : Nat)
    (pre mid post : List VoiceEvent)
    (hpost : ∀ e ∈ post, ∀ u : Nat, e ≠ .speakingStateUpdate S (some u)) :
    ((h.runEvents mgr now
        (pre ++ [.speakingStateUpdate S (some A)] ++ mid ++
          [.speakingStateUpdate S (some B)] ++ post)).1).ssrc_to_user.lookup
      S = some B := by
  have hsplit : pre ++ [VoiceEvent.speakingStateUpdate S (some A)] ++ mid ++
      [VoiceEvent.speakingStateUpdate S (some B)] ++ post =
      (pre ++ [VoiceEvent.speakingStateUpdate S (some A)] ++ mid) ++
        ([VoiceEvent.speakingStateUpdate S (some B)] ++ post) := by
    simp [List.append_assoc]
  rw [hsplit, VoiceTranslateHandler.runEvents_append,
    VoiceTranslateHandler.runEvents_append,
    runEvents_preserves_attribution now S post hpost]
  simp [VoiceTranslateHandler.runEvents, VoiceTranslateHandler.act,
    AMap.lookup_insert_self]

/-- Witness for `attribution_last_write_wins`: stream 7 attributed to user 3,
then to user 4, with one trailing voice tick; lookup yields 4. -/
theorem attribution_last_write_wins_witness :
    (((VoiceTranslateHandler.new 1).runEvents [] 0
        ([] ++ [.speakingStateUpdate 7 (some 3)] ++ [] ++
          [.speakingStateUpdate 7 (some 4)] ++
          [.voiceTick []])).1).ssrc_to_user.lookup 7 = some 4 := by
  exact attribution_last_write_wins (VoiceTranslateHandler.new 1) [] 0 7 3 4
    [] [] [.voiceTick []]
    (by
      intro e he u
      simp only [List.mem_singleton] at he
      subst he
      simp)

/-! ## `voice_recorder.rs`, `commands.rs`, `main.rs`: sessions per scope -/

/-- Mirror of `RecordingSession` (buffers keyed by speaker id; the output
directory and WAV serialization are out of scope here). -/
structure RecordingSession where
  guild_id : Nat
  channel_id : Nat
  start_time : Int
  speaker_buffers : AMap (List Int)
deriving Repr, DecidableEq

namespace RecordingSession

/-- Mirror of `RecordingSession::new`. -/
def new (guild_id channel_id : Nat) (now : Int) : RecordingSession :=
  { guild_id := guild_id, channel_id := channel_id, start_time := now,
    speaker_buffers := [] }

/-- Mirror of `RecordingSession::add_audio`
(`entry(speaker).or_insert_with(Vec::new).extend_from_slice(samples)`). -/
def add_audio (s : RecordingSession) (speaker_id : Nat) (samples : List Int) :
    RecordingSession :=
  { s with speaker_buffers :=
      s.speaker_buffers.update speaker_id [] (fun b => b ++ samples) }

end RecordingSession

/-- Mirror of `RecordingManager::active_sessions` (keyed by guild id). -/
abbrev RecordingManager := AMap RecordingSession

/-- Outcome presented by the start handlers: the success message, the
"already recording / already active" refusal, or `handle_translate_start`'s
"cannot start translation while recording is in progress" refusal. -/
inductive StartOutcome
  | started
  | alreadyActive
  | cannotWhileRecording
deriving Repr, DecidableEq

/-- The two session registries (`RecordingManager` and `TranslationManager`)
held by the bot state in `main.rs`. -/
structure BotSessions where
  recording : RecordingManager
  translation : TranslationManager
deriving Repr, DecidableEq

/-- Mirror of `RecordingCommands::handle_record_start`: refuse when the guild
is already recording (the manager is untouched), otherwise
`start_recording` registers a fresh session.  It does not consult the
translation manager. -/
def handle_record_start (st : BotSessions) (guild_id channel_id : Nat)
    (now : Int) : StartOutcome × BotSessions :=
  if st.recording.contains guild_id then (.alreadyActive, st)
  else
    (.started,
     { st with recording := st.recording.insert guild_id
                 (RecordingSession.new guild_id channel_id now) })

/-- Mirror of `handle_translate_start` in `main.rs` (successful voice-join
path): refuse when the guild is recording, refuse when it is already
translating, otherwise `start_translation` registers a fresh session. -/
def handle_translate_start (st : BotSessions) (guild_id channel_id : Nat)
    (pair : TranslationPair) (now : Int) : StartOutcome × BotSessions :=
  if st.recording.contains guild_id then (.cannotWhileRecording, st)
  else if st.translation.is_translating guild_id then (.alreadyActive, st)
  else
    (.started,
     { st with translation := (TranslationManager.start_translation
        st.translation guild_id channel_id pair now).2 })

/-- The session-control commands dispatched by `main.rs`. -/
inductive Command
  | recordStart (guild channel : Nat)
  | recordStop (guild : Nat)
  | translateStart (guild channel : Nat) (pair : TranslationPair)
  | translateStop (guild : Nat)
deriving Repr, DecidableEq

/-- One command against the bot state (`stop` handlers remove the session via
`stop_recording` / `stop_translation`). -/
def stepCommand (now : Int) (st : BotSessions) : Command → BotSessions
  | .recordStart g c => (handle_record_start st g c now).2
  | .recordStop g => { st with recording := st.recording.erase g }
  | .translateStart g c pair => (handle_translate_start st g c pair now).2
  | .translateStop g => { st with translation := st.translation.erase g }

/-- Run a command sequence from the initial (empty) bot state. -/
def runCommands (now : Int) (cs : List Command) : BotSessions :=
  cs.foldl (stepCommand now) { recording := [], translation := [] }

/-! ## Claim C6: starting an active scope fails and mutates nothing -/

/-- C6: starting a recording for a guild that already has a recording session
yields the already-active refusal and returns the state unchanged (the
registered session is not replaced or mutated); likewise starting a
translation for a guild that already has a translation session (and is not
recording) yields the already-active refusal and changes nothing. -/
theorem start_on_active_scope_fails (st : BotSessions) (g c : Nat)
    (pair : TranslationPair) (now : Int) (rs : RecordingSession)
    (ts : TranslationSession) :
    (st.recording.lookup g = some rs →
      handle_record_start st g c now = (.alreadyActive, st))
    ∧ (st.recording.contains g = false →
        st.translation.lookup g = some ts →
        handle_translate_start st g c pair now = (.alreadyActive, st)) := by
  constructor
  · intro hr
    simp [handle_record_start, AMap.contains, hr]
  · intro hnr ht
    have hnone : st.recording.lookup g = none := by
      unfold AMap.contains at hnr
      cases h : st.recording.lookup g with
      | none => rfl
      | some v => rw [h] at hnr; simp at hnr
    simp [handle_translate_start, TranslationManager.is_translating,
      AMap.contains, hnone, ht]

/-- Witness for `start_on_active_scope_fails` on concrete one-session
states. -/
theorem start_on_active_scope_fails_witness :
    handle_record_start
      (BotSessions.mk [(1, RecordingSession.new 1 2 0)] []) 1 9 5 =
      (.alreadyActive, BotSessions.mk [(1, RecordingSession.new 1 2 0)] [])
    ∧ handle_translate_start
        (BotSessions.mk []
          [(1, TranslationSession.new 1 2 (TranslationPair.mk "ja" "en") 0)])
        1 9 (TranslationPair.mk "ja" "en") 5 =
      (.alreadyActive,
       BotSessions.mk []
         [(1, TranslationSession.new 1 2 (TranslationPair.mk "ja" "en") 0)]) :=
  ⟨(start_on_active_scope_fails
      (BotSessions.mk [(1, RecordingSession.new 1 2 0)] []) 1 9
      (TranslationPair.mk "ja" "en") 5 (RecordingSession.new 1 2 0)
      (TranslationSession.new 1 2 (TranslationPair.mk "ja" "en") 0)).1 rfl,
   (start_on_active_scope_fails
      (BotSessions.mk []
        [(1, TranslationSession.new 1 2 (TranslationPair.mk "ja" "en") 0)])
      1 9 (TranslationPair.mk "ja" "en") 5 (RecordingSession.new 1 2 0)
      (TranslationSession.new 1 2 (TranslationPair.mk "ja" "en") 0)).2 rfl
     rfl⟩

/-! ## Claim C7: at most one session per scope, regardless of mode -/

/-- C7 (divergence witness): the reachable command sequence
`translate_start` for guild 1 followed by `record start` for guild 1 leaves
guild 1 with an active translation session AND an active recording session
simultaneously: `handle_record_start` only consults the recording manager,
while `handle_translate_start` consults both.  This violates the single
session-per-scope invariant. -/
theorem one_session_per_scope_violation :
    (runCommands 0
        [.translateStart 1 2 (TranslationPair.mk "ja" "en"),
         .recordStart 1 3]).translation.contains 1 = true
    ∧ (runCommands 0
        [.translateStart 1 2 (TranslationPair.mk "ja" "en"),
         .recordStart 1 3]).recording.contains 1 = true := by
  constructor <;> rfl

/-! ## `translator.rs`: DeepL translation with retry/backoff

The HTTP transport is abstracted as an oracle `resp : Nat → DeepLResult`
giving the outcome of each numbered attempt; the JSON body of a success
response is abstracted as its parsed `translations` text list.  The Rust
`str` helpers `trim`, `to_lowercase` and (single-character) `replace` are
modelled on character lists so that they evaluate. -/

/-- Model of Rust `str::trim`. -/
def strTrim (s : String) : String :=
  String.mk (((s.toList.dropWhile Char.isWhitespace).reverse.dropWhile
    Char.isWhitespace).reverse)

/-- Model of Rust `str::to_lowercase`. -/
def strToLower (s : String) : String :=
  String.mk (s.toList.map Char.toLower)

/-- Unicode Cc test mirroring Rust's `char::is_control`. -/
def isControlChar (c : Char) : Bool :=
  c.toNat < 32 || (127 ≤ c.toNat && c.toNat ≤ 159)

/-- The two `replace` calls of `sanitize_input`, per character (both patterns
are single characters). -/
def escapeAngle (c : Char) : List Char :=
  if c = '<' then "&lt;".toList
  else if c = '>' then "&gt;".toList
  else [c]

/-- Mirror of `Translator::sanitize_input`: drop control characters except
newline and tab, truncate to 2000 characters, then HTML-escape `<` and
`>`. -/
def sanitize_input (text : String) : String :=
  String.mk (((text.toList.filter
    (fun c => !isControlChar c || c = '\n' || c = '\t')).take 2000).flatMap
      escapeAngle)

/-- Mirror of `Translator::map_language_code`. -/
def map_language_code (lang : String) : Except String String :=
  let normalized := strToLower (strTrim lang)
  if normalized = "ja" ∨ normalized = "japanese" ∨ normalized = "jp" then
    Except.ok "JA"
  else if normalized = "ko" ∨ normalized = "korean" ∨ normalized = "kr" then
    Except.ok "KO"
  else if normalized = "en" ∨ normalized = "english" ∨ normalized = "en-us" ∨
      normalized = "en_us" then
    Except.ok "EN-US"
  else if normalized = "en-gb" ∨ normalized = "en_gb" then
    Except.ok "EN-GB"
  else Except.error ("Unsupported language code: " ++ lang)

/-- Outcome of one HTTP attempt: a transport error (`reqwest` `Err`), or a
response with its status code, error body, and — for the success path — the
parse result of the `translations` array. -/
inductive DeepLResult
  | transportErr (msg : String)
  | resp (status : Nat) (body : String) (parsed : Except String (List String))
deriving Repr

/-- Mirror of `reqwest::StatusCode::is_success` (2xx). -/
def isSuccessStatus (s : Nat) : Bool :=
  decide (200 ≤ s) && decide (s ≤ 299)

/-- Mirror of `matches!(status_code, 429 | 500 | 502 | 503 | 504)`. -/
def retryableStatus (s : Nat) : Bool :=
  s == 429 || s == 500 || s == 502 || s == 503 || s == 504

/-- Result of `Translator::translate` together with the performed backoff
sleeps (milliseconds, in order) and the number of HTTP attempts made. -/
structure TranslateOutcome where
  result : Except String String
  sleeps : List Nat
  calls : Nat
deriving Repr

/-- Mirror of the `for attempt in 1..=max_attempts` retry loop of
`Translator::translate`, over the list of remaining attempt numbers.  Each
retried attempt sleeps `200 * attempt` ms.  The `[]` case is the
unreachable fall-through after the loop. -/
def runAttempts (resp : Nat → DeepLResult) (max_attempts : Nat) :
    List Nat → Option String → TranslateOutcome
  | [], last_error =>
      { result := .error (last_error.getD "DeepL API error"), sleeps := [],
        calls := 0 }
  | attempt :: rest, _ =>
      match resp attempt with
      | .transportErr e =>
          let msg := "DeepL request failed: " ++ e
          if attempt < max_attempts then
            let r := runAttempts resp max_attempts rest (some msg)
            { result := r.result, sleeps := 200 * attempt :: r.sleeps,
              calls := r.calls + 1 }
          else { result := .error msg, sleeps := [], calls := 1 }
      | .resp status body parsed =>
          if isSuccessStatus status then
            match parsed with
            | .error e => { result := .error e, sleeps := [], calls := 1 }
            | .ok translations =>
                match translations with
                | t :: _ =>
                    { result := .ok (strTrim t), sleeps := [], calls := 1 }
                | [] =>
                    { result := .error "No translation returned from DeepL API",
                      sleeps := [], calls := 1 }
          else if retryableStatus status && attempt < max_attempts then
            let r := runAttempts resp max_attempts rest
              (some ("DeepL API error: " ++ toString status ++ " - " ++ body))
            { result := r.result, sleeps := 200 * attempt :: r.sleeps,
              calls := r.calls + 1 }
          else if status = 456 then
            { result := .error "DeepL API quota exceeded (456)", sleeps := [],
              calls := 1 }
          else
            { result :=
                .error ("DeepL API error: " ++ toString status ++ " - " ++ body),
              sleeps := [], calls := 1 }

/-- Mirror of `Translator::translate`: sanitize, short-circuit empty text,
map both language codes, then run at most 3 attempts. -/
def Translator.translate (resp : Nat → DeepLResult)
    (text source_lang target_lang : String) : TranslateOutcome :=
  let sanitized_text := sanitize_input text
  if strTrim sanitized_text = "" then
    { result := .ok "", sleeps := [], calls := 0 }
  else
    match map_language_code source_lang with
    | .error e => { result := .error e, sleeps := [], calls := 0 }
    | .ok _ =>
        match map_language_code target_lang with
        | .error e => { result := .error e, sleeps := [], calls := 0 }
        | .ok _ => runAttempts resp 3 [1, 2, 3] none

/-- A transient-class failure: a transport error, or a non-success response
whose status is in the retryable set (429 rate limit, 500/502/503/504
transient unavailability). -/
def isTransient : DeepLResult → Bool
  | .transportErr _ => true
  | .resp status _ _ => !isSuccessStatus status && retryableStatus status

/-! ## Claim C8: retry policy of `Translator::translate` -/

/-- The attempt loop makes at most one HTTP call per remaining attempt
number. -/
theorem runAttempts_calls_le (resp : Nat → DeepLResult) (m : Nat) :
    ∀ (l : List Nat) (le : Option String),
      (runAttempts resp m l le).calls ≤ l.length := by
  intro l
  induction l with
  | nil => intro le; simp [runAttempts]
  | cons a rest ih =>
      intro le
      rw [runAttempts]
      cases resp a with
      | transportErr e =>
          dsimp only
          by_cases h : a < m
          · rw [if_pos h]
            exact Nat.succ_le_succ (ih _)
          · rw [if_neg h]
            simp
      | resp status body parsed =>
          dsimp only
          by_cases hs : isSuccessStatus status
          · rw [if_pos hs]
            cases parsed with
            | error e => simp
            | ok translations => cases translations <;> simp
          · rw [if_neg hs]
            by_cases hr : (retryableStatus status && decide (a < m)) = true
            · rw [if_pos hr]
              exact Nat.succ_le_succ (ih _)
            · rw [if_neg hr]
              by_cases h456 : status = 456
              · rw [if_pos h456]
                simp
              · rw [if_neg h456]
                simp

/-- The concrete-text preamble of `translate` reduces to the attempt loop. -/
theorem translate_hello_eq (resp : Nat → DeepLResult) :
    Translator.translate resp "hello" "ja" "en" =
      runAttempts resp 3 [1, 2, 3] none := rfl

/-- A non-transient first outcome ends the loop at one call. -/
theorem runAttempts_stops_on_non_transient (resp : Nat → DeepLResult)
    (a : Nat) (rest : List Nat) (le : Option String)
    (h : isTransient (resp a) = false) :
    (runAttempts resp 3 (a :: rest) le).calls = 1 := by
  rw [runAttempts]
  cases hra : resp a with
  | transportErr e => rw [hra] at h; simp [isTransient] at h
  | resp status body parsed =>
      rw [hra] at h
      simp only [isTransient, Bool.and_eq_false_iff, Bool.not_eq_false] at h
      dsimp only
      by_cases hs : isSuccessStatus status
      · rw [if_pos hs]
        cases parsed with
        | error e => rfl
        | ok translations => cases translations <;> rfl
      · rw [if_neg hs]
        have hr : retryableStatus status = false := by
          rcases h with h | h
          · exact absurd (by simpa using h) hs
          · exact h
        rw [if_neg (by simp [hr])]
        by_cases h456 : status = 456
        · rw [if_pos h456]
        · rw [if_neg h456]

/-- A transient outcome on attempt `a < 3` continues the loop: one extra
call, and a `200 * a` ms sleep is prepended. -/
theorem runAttempts_continues_on_transient (resp : Nat → DeepLResult)
    (a : Nat) (rest : List Nat) (le : Option String) (ha : a < 3)
    (h : isTransient (resp a) = true) :
    ∃ le2, runAttempts resp 3 (a :: rest) le =
      { result := (runAttempts resp 3 rest le2).result,
        sleeps := 200 * a :: (runAttempts resp 3 rest le2).sleeps,
        calls := (runAttempts resp 3 rest le2).calls + 1 } := by
  rw [runAttempts]
  cases hra : resp a with
  | transportErr e =>
      refine ⟨some ("DeepL request failed: " ++ e), ?_⟩
      dsimp only
      rw [if_pos ha]
  | resp status body parsed =>
      rw [hra] at h
      simp only [isTransient, Bool.and_eq_true, Bool.not_eq_true'] at h
      refine ⟨some ("DeepL API error: " ++ toString status ++ " - " ++ body), ?_⟩
      dsimp only
      rw [if_neg (by simp [h.1]), if_pos (by simp [h.2, ha])]

/-- C8: `translate` makes at most 3 attempts; a second (third) attempt
happens only if the first (second) outcome was transient-class; a 456
quota-exceeded response is fatal immediately, with no retry and no sleep;
and when two transient failures precede a success, the successful text is
returned after exactly the two backoff sleeps `200 * 1` and `200 * 2` ms. -/
theorem translate_retry_policy (resp : Nat → DeepLResult) (t body : String)
    (parsed : Except String (List String)) :
    (∀ text sl tl : String, (Translator.translate resp text sl tl).calls ≤ 3)
    ∧ ((Translator.translate resp "hello" "ja" "en").calls ≥ 2 →
        isTransient (resp 1) = true)
    ∧ ((Translator.translate resp "hello" "ja" "en").calls ≥ 3 →
        isTransient (resp 2) = true)
    ∧ (resp 1 = .resp 456 body parsed →
        Translator.translate resp "hello" "ja" "en" =
          { result := .error "DeepL API quota exceeded (456)", sleeps := [],
            calls := 1 })
    ∧ (isTransient (resp 1) = true → isTransient (resp 2) = true →
        resp 3 = .resp 200 body (.ok [t]) →
        Translator.translate resp "hello" "ja" "en" =
          { result := .ok (strTrim t), sleeps := [200 * 1, 200 * 2],
            calls := 3 }) := by
  refine ⟨?_, ?_, ?_, ?_, ?_⟩
  · intro text sl tl
    unfold Translator.translate
    by_cases h0 : strTrim (sanitize_input text) = ""
    · rw [if_pos h0]
      simp
    · rw [if_neg h0]
      cases map_language_code sl with
      | error e => simp
      | ok c1 =>
          cases map_language_code tl with
          | error e => simp
          | ok c2 =>
              dsimp only
              exact le_trans (runAttempts_calls_le resp 3 [1, 2, 3] none)
                (by simp)
  · intro hcalls
    rw [translate_hello_eq] at hcalls
    by_cases h1 : isTransient (resp 1) = true
    · exact h1
    · rw [runAttempts_stops_on_non_transient resp 1 [2, 3] none
        (by simpa using h1)] at hcalls
      omega
  · intro hcalls
    rw [translate_hello_eq] at hcalls
    by_cases h1 : isTransient (resp 1) = true
    · obtain ⟨le2, heq⟩ := runAttempts_continues_on_transient resp 1 [2, 3]
        none (by omega) h1
      rw [heq] at hcalls
      by_cases h2 : isTransient (resp 2) = true
      · exact h2
      · rw [runAttempts_stops_on_non_transient resp 2 [3] le2
          (by simpa using h2)] at hcalls
        simp at hcalls
    · rw [runAttempts_stops_on_non_transient resp 1 [2, 3] none
        (by simpa using h1)] at hcalls
      omega
  · intro h456
    rw [translate_hello_eq, runAttempts, h456]
    dsimp only
    rw [if_neg (show ¬isSuccessStatus 456 = true by decide)]
    rw [if_neg (show ¬(retryableStatus 456 && decide (1 < 3)) = true by decide)]
    rfl
  · intro h1 h2 h3
    rw [translate_hello_eq]
    obtain ⟨le2, heq1⟩ := runAttempts_continues_on_transient resp 1 [2, 3]
      none (by omega) h1
    obtain ⟨le3, heq2⟩ := runAttempts_continues_on_transient resp 2 [3] le2
      (by omega) h2
    have heq3 : runAttempts resp 3 [3] le3 =
        { result := .ok (strTrim t), sleeps := [], calls := 1 } := by
      rw [runAttempts, h3]
      dsimp only
      rw [if_pos (by decide)]
    rw [heq1, heq2, heq3]

/-- Attempt oracle for the C8 witness: 429 rate limit, then a transport
error, then success. -/
def c8resp : Nat → DeepLResult
  | 1 => .resp 429 "rate limited" (.error "no body")
  | 2 => .transportErr "connection reset"
  | _ => .resp 200 "" (.ok ["Hallo "])

/-- Witness for `translate_retry_policy`: two transient failures then
success yields the trimmed text after backoffs of 200 and 400 ms. -/
theorem translate_retry_policy_witness :
    Translator.translate c8resp "hello" "ja" "en" =
      { result := .ok "Hallo", sleeps := [200, 400], calls := 3 } := by
  rw [(translate_retry_policy c8resp "Hallo " "" (.ok ["Hallo "])).2.2.2.2
    rfl rfl rfl]
  rfl

/-! ## `transcriber.rs`: speech recognition front-end

The whisper model (an external collaborator) is abstracted as a context
whose operations may fail; the audio element type is kept abstract (the
code passes 32-bit float samples). -/

/-- Abstraction of the whisper context: `create_state` + `full` as one
fallible run producing a state `σ`, plus `lang_detect(0, 4)` and the
segment-text extraction. -/
structure WhisperCtx (σ α : Type) where
  full : List α → Except String σ
  lang_detect : σ → Except String Nat
  extract_text : σ → Except String String

/-- Mirror of the `LANGUAGE_CODES` table. -/
def LANGUAGE_CODES : List String :=
  ["en", "zh", "de", "es", "ru", "ko", "fr", "ja", "pt", "tr", "pl", "ca",
   "nl", "ar", "sv", "it", "id", "hi", "fi", "vi", "he", "uk", "el", "ms",
   "cs", "ro", "da", "hu", "ta", "no", "th", "ur", "hr", "bg", "lt", "la",
   "mi", "ml", "cy", "sk", "te", "fa", "lv", "bn", "sr", "az", "sl", "kn",
   "et", "mk", "br", "eu", "is", "hy", "ne", "mn", "bs", "kk", "sq", "sw",
   "gl", "mr", "pa", "si", "km", "sn", "yo", "so", "af", "oc", "ka", "be",
   "tg", "sd", "gu", "am", "yi", "lo", "uz", "fo", "ht", "ps", "tk", "nn",
   "mt", "sa", "lb", "my", "bo", "tl", "mg", "as", "tt", "haw", "ln", "ha",
   "ba", "jw", "su"]

/-- Mirror of `get_lang_str_from_id` (out-of-range ids fall back to
`"en"`). -/
def get_lang_str_from_id (lang_id : Nat) : String :=
  LANGUAGE_CODES.getD lang_id "en"

/-- Mirror of `Transcriber::detect_language_local` (the fallback character
heuristic: Japanese when over a tenth of the characters are
hiragana/katakana/kanji). -/
def detect_language_local (text : String) : String :=
  let hiragana_count :=
    (text.toList.filter (fun c => 0x3040 ≤ c.toNat ∧ c.toNat ≤ 0x309F)).length
  let katakana_count :=
    (text.toList.filter (fun c => 0x30A0 ≤ c.toNat ∧ c.toNat ≤ 0x30FF)).length
  let kanji_count :=
    (text.toList.filter (fun c => 0x4E00 ≤ c.toNat ∧ c.toNat ≤ 0x9FFF)).length
  let total_chars := text.toList.length
  let japanese_chars := hiragana_count + katakana_count + kanji_count
  if total_chars > 0 ∧ japanese_chars * 10 > total_chars then "ja" else "en"

/-- Mirror of `Transcriber::transcribe_with_language`: empty input
short-circuits to `Ok(("", "en"))`; otherwise a detection pass (unless a
language hint is given) followed by the transcription pass. -/
def transcribe_with_language {σ α : Type} (ctx : WhisperCtx σ α)
    (audio_data : List α) (language : Option String) :
    Except String (String × String) :=
  if audio_data.isEmpty then .ok ("", "en")
  else
    let detectedE : Except String String :=
      match language with
      | some lang => .ok lang
      | none =>
          match ctx.full audio_data with
          | .error e => .error e
          | .ok state =>
              match ctx.lang_detect state with
              | .ok lang_id => .ok (get_lang_str_from_id lang_id)
              | .error _ =>
                  match ctx.extract_text state with
                  | .error e => .error e
                  | .ok text => .ok (detect_language_local text)
    match detectedE with
    | .error e => .error e
    | .ok detected_lang =>
        match ctx.full audio_data with
        | .error e => .error e
        | .ok state2 =>
            match ctx.extract_text state2 with
            | .error e => .error e
            | .ok transcription => .ok (transcription, detected_lang)

/-! ## Claim C9: empty audio short-circuits -/

/-- C9: for empty sample input, transcription succeeds with an empty text
result for every whisper context — including one all of whose operations
fail — so the model is never invoked and empty input is never surfaced as
an error. -/
theorem empty_audio_short_circuits {σ α : Type} (ctx : WhisperCtx σ α)
    (language : Option String) :
    transcribe_with_language ctx ([] : List α) language =
      .ok ("", "en") := rfl

end DiggyGizzy
